import Mathlib

/-!
Shallow embedding of the image-viewer program (src/src/main.rs).

Modelling conventions:
* Rust `i32` values are modelled as `Int` (image and screen dimensions stay
  far below the `i32` range in every statement below, so wrap-around is not
  modelled).
* Rust `f64` values are modelled as `ℚ` (exact arithmetic; the program only
  multiplies, divides and compares scalars, and rotates by exact quarter
  turns, so every quantity appearing in the claims is rational).
* the `as i32` cast of a float truncates toward zero: `truncQ`.
* Rust integer `/` truncates toward zero: `Int.tdiv`.
* Rust `clamp` panics when the lower bound exceeds the upper bound; this is
  modelled by `clampI32` returning `none` in that case, and a function that
  can panic returns an `Option`.
* `cairo::ImageSurface::create` fails (returns `Err`) exactly when a
  requested dimension is negative or exceeds cairo's maximal surface
  dimension 32767; this is `imageSurfaceCreate`.
-/

/-- `const TITLEBAR_HEIGHT: i32 = 28`. -/
def TITLEBAR_HEIGHT : Int := 28

/-- `const MIN_WIN_WIDTH: i32 = 400`. -/
def MIN_WIN_WIDTH : Int := 400

/-- `const MIN_WIN_HEIGHT: i32 = 300`. -/
def MIN_WIN_HEIGHT : Int := 300

/-- `enum WindowMode { Normal, Overlay }`. -/
inductive WindowMode where
  | Normal
  | Overlay
deriving DecidableEq, Repr

/-- A loaded `gdk::Texture`: only its pixel dimensions matter to the logic. -/
structure Texture where
  width : Int
  height : Int
deriving DecidableEq, Repr

/-- `struct ImageState` (main.rs lines 113-121). -/
structure ImageState where
  pixbuf : Option Texture
  scale : ℚ
  offset_x : ℚ
  offset_y : ℚ
  rotation : Int
  original_width : Int
  original_height : Int
deriving DecidableEq, Repr

/-- `impl Default for ImageState` (main.rs lines 129-134). -/
def ImageState.default : ImageState :=
  { pixbuf := none, scale := 1, offset_x := 0, offset_y := 0, rotation := 0,
    original_width := 0, original_height := 0 }

/-- `struct OverlayPosition` (main.rs lines 124-127). -/
structure OverlayPosition where
  margin_left : Int
  margin_top : Int
deriving DecidableEq, Repr

/-- `impl Default for OverlayPosition` (main.rs lines 136-140). -/
def OverlayPosition.default : OverlayPosition :=
  { margin_left := 100, margin_top := 100 }

/-- Truncation toward zero, the behaviour of Rust's `as i32` cast on a
(finite, in-range) `f64`. -/
def truncQ (q : ℚ) : Int := if 0 ≤ q then ⌊q⌋ else ⌈q⌉

/-- Rust's `i32::clamp(lo, hi)`: panics (here `none`) when `lo > hi`. -/
def clampI32 (x lo hi : Int) : Option Int :=
  if lo ≤ hi then some (max lo (min x hi)) else none

/-- Rust's `f64::clamp(0.1, 50.0)` as used on the scale factor; the bounds
are constant and ordered, so it is total. -/
def clampScale (x : ℚ) : ℚ := max (1/10) (min x 50)

/-- `get_screen_size` (main.rs lines 22-32): the geometry of the first
monitor when one is reported, else the fallback `(1920, 1080)`. -/
def get_screen_size (monitor : Option (Int × Int)) : Int × Int :=
  match monitor with
  | some geom => geom
  | none => (1920, 1080)

/-- `calc_target_size` (main.rs lines 35-42), parameterised by the screen
size that `get_screen_size` returned.  `none` models a `clamp` panic. -/
def calc_target_size (screen : Int × Int) (img_w img_h : Int) :
    Option (Int × Int) :=
  let max_w := screen.1 - 100
  let max_h := screen.2 - 100
  match clampI32 img_w MIN_WIN_WIDTH max_w,
        clampI32 (img_h + TITLEBAR_HEIGHT) MIN_WIN_HEIGHT max_h with
  | some w, some h => some (w, h)
  | _, _ => none

/-- `is_at_screen_limit` (main.rs lines 157-162). -/
def is_at_screen_limit (screen : Int × Int) (scaled_w scaled_h : Int) : Bool :=
  let max_w := screen.1 - 100
  let max_h := screen.2 - 100 - TITLEBAR_HEIGHT
  decide (scaled_w ≥ max_w) || decide (scaled_h ≥ max_h)

/-- `get_rotated_size` (main.rs lines 165-170): `rotation % 2` is Rust's
remainder; for the `0` arm the sizes are kept, any other value swaps them.
Rust `%` and `Int.emod` agree on whether the remainder is zero. -/
def get_rotated_size (state : ImageState) : Int × Int :=
  if state.rotation.emod 2 = 0 then (state.original_width, state.original_height)
  else (state.original_height, state.original_width)

/-- `get_scaled_size` (main.rs lines 173-176). -/
def get_scaled_size (state : ImageState) : Int × Int :=
  let wh := get_rotated_size state
  (truncQ ((wh.1 : ℚ) * state.scale), truncQ ((wh.2 : ℚ) * state.scale))

/-- The cairo raster cached by the draw functions.  Only the requested
dimensions of the `ImageSurface` are relevant to any claim (its pixel
content is written by `node.draw` and never read back by the program). -/
structure Surface where
  width : Int
  height : Int
deriving DecidableEq, Repr

/-- `cairo::ImageSurface::create(Format::ARgb32, tw, th)`: `Ok` exactly when
both dimensions are within cairo's supported range `[0, 32767]`. -/
def imageSurfaceCreate (tw th : Int) : Option Surface :=
  if 0 ≤ tw ∧ tw ≤ 32767 ∧ 0 ≤ th ∧ th ≤ 32767 then some ⟨tw, th⟩ else none

/-- The two cache cells shared by a draw function: `cached_surface` and
`cached_rotation` (main.rs lines 446-447 resp. 284-285).  Both start as
`(none, -1)`. -/
structure Cache where
  surface : Option Surface
  rotation : Int
deriving DecidableEq, Repr

/-- Initial cache: `cached_surface = None`, `cached_rotation = -1`. -/
def Cache.initial : Cache := { surface := none, rotation := -1 }

/-- Effect of one draw invocation on the cache (main.rs lines 456-472, and
identically lines 199-214): when an image is loaded, the raster is
regenerated when `cached_rotation != state.rotation` or no surface is
cached, and then only if `ImageSurface::create` succeeds. -/
def drawCacheStep (state : ImageState) (c : Cache) : Cache :=
  match state.pixbuf with
  | none => c
  | some texture =>
    let needUpdate : Bool :=
      decide (c.rotation ≠ state.rotation) || c.surface.isNone
    if needUpdate then
      match imageSurfaceCreate texture.width texture.height with
      | some surface => { surface := some surface, rotation := state.rotation }
      | none => c
    else c

/-- Exact quarter-turn rotation of a point, the value of cairo's
`rotate(k * FRAC_PI_2)` on integer `k` (cos/sin of `k·π/2` are `±1/0`). -/
def rotQuad (k : Int) (p : ℚ × ℚ) : ℚ × ℚ :=
  if k.emod 4 = 0 then p
  else if k.emod 4 = 1 then (-p.2, p.1)
  else if k.emod 4 = 2 then (-p.1, -p.2)
  else (p.2, -p.1)

/-- The point of the drawing area at which a source-image point `p` is
painted by the normal-mode draw function (main.rs lines 474-494): the image
position `(x, y)` is centre plus pan offset, then cairo applies
`translate(x + scaled_w/2, y + scaled_h/2)`, `rotate(rotation · π/2)`,
`scale(scale, scale)`, `translate(-original_width/2, -original_height/2)`
to source coordinates. -/
def paintPoint (s : ImageState) (width height : ℚ) (p : ℚ × ℚ) : ℚ × ℚ :=
  let wh := get_rotated_size s
  let scaled_w := (wh.1 : ℚ) * s.scale
  let scaled_h := (wh.2 : ℚ) * s.scale
  let x := (width - scaled_w) / 2 + s.offset_x
  let y := (height - scaled_h) / 2 + s.offset_y
  let q := rotQuad s.rotation
    (s.scale * (p.1 - (s.original_width : ℚ) / 2),
     s.scale * (p.2 - (s.original_height : ℚ) / 2))
  (x + scaled_w / 2 + q.1, y + scaled_h / 2 + q.2)

/-- `if dy < 0.0 { 1.1 } else { 1.0 / 1.1 }` (main.rs line 520). -/
def zoomFactor (dy : ℚ) : ℚ := if dy < 0 then 11/10 else 10/11

/-- State part of the normal-mode scroll handler (main.rs lines 513-564):
scale update with clamp, then either cursor-anchored offset adjustment
(image at the screen limit) or a reset of the offsets to centre. -/
def scrollZoomState (screen : Int × Int) (mouse : ℚ × ℚ)
    (daW daH : ℚ) (dy : ℚ) (s : ImageState) : ImageState :=
  if s.pixbuf.isNone then s else
  let old_scale := s.scale
  let scale := clampScale (s.scale * zoomFactor dy)
  let wh := get_rotated_size s
  let scaled_w := truncQ ((wh.1 : ℚ) * scale)
  let scaled_h := truncQ ((wh.2 : ℚ) * scale)
  if is_at_screen_limit screen scaled_w scaled_h then
    let cx := daW / 2 + s.offset_x
    let cy := daH / 2 + s.offset_y
    let ratio := scale / old_scale
    { s with scale := scale,
             offset_x := s.offset_x + (mouse.1 - cx) * (1 - ratio),
             offset_y := s.offset_y + (mouse.2 - cy) * (1 - ratio) }
  else
    { s with scale := scale, offset_x := 0, offset_y := 0 }

/-- State part of the overlay-mode scroll handler (main.rs lines 297-314):
only the scale changes, with the same factor and clamp. -/
def overlayScrollZoomState (dy : ℚ) (s : ImageState) : ImageState :=
  if s.pixbuf.isNone then s
  else { s with scale := clampScale (s.scale * zoomFactor dy) }

/-- `gtk4_layer_shell::Layer`. -/
inductive LayerKind where
  | Background
  | Bottom
  | Top
  | Overlay
deriving DecidableEq, Repr

/-- The configuration of the overlay window built by `create_overlay_window`
(main.rs lines 244-371): decoration, default size, layer-shell layer,
anchors, margins and the drawing-area content size. -/
structure OverlayWindow where
  decorated : Bool
  defaultW : Int
  defaultH : Int
  layer : LayerKind
  anchorLeft : Bool
  anchorTop : Bool
  anchorRight : Bool
  anchorBottom : Bool
  marginLeft : Int
  marginTop : Int
  daContentW : Int
  daContentH : Int
deriving DecidableEq, Repr

/-- `create_overlay_window` (main.rs lines 244-290, window construction):
undecorated, sized to the scaled image with a floor of 50 pixels, put on the
`Overlay` layer, anchored to the left and top edges at the stored margins. -/
def create_overlay_window (s : ImageState) (pos : OverlayPosition) :
    OverlayWindow :=
  let sw := (get_scaled_size s).1
  let sh := (get_scaled_size s).2
  { decorated := false,
    defaultW := max sw 50, defaultH := max sh 50,
    layer := LayerKind.Overlay,
    anchorLeft := true, anchorTop := true,
    anchorRight := false, anchorBottom := false,
    marginLeft := pos.margin_left, marginTop := pos.margin_top,
    daContentW := max sw 50, daContentH := max sh 50 }

/-- The whole observable state of the program: the shared `ImageState`, the
normal-mode draw cache, the mode flag, the primary window's visibility and
sizes, the labels, pending-redraw flag, the overlay position record, the
overlay window (when open) and the lines printed to stderr. -/
structure World where
  state : ImageState
  cache : Cache
  mode : WindowMode
  mainVisible : Bool
  daContentW : Int
  daContentH : Int
  winDefaultW : Int
  winDefaultH : Int
  redrawQueued : Bool
  zoomLabel : ℚ
  resLabel : Option (Int × Int)
  pathLabel : Option String
  overlayPos : OverlayPosition
  overlayWindow : Option OverlayWindow
  stderrLog : List String
deriving DecidableEq, Repr

/-- The fit-to-window scale used by both `load_image` (main.rs lines
840-844) and the reset button (line 967): width ratio to the target, height
ratio to the target content (target height minus the titlebar), capped at
1. -/
def fitScale (target : Int × Int) (img_w img_h : Int) : ℚ :=
  let content_h := target.2 - TITLEBAR_HEIGHT
  min (min ((target.1 : ℚ) / (img_w : ℚ)) ((content_h : ℚ) / (img_h : ℚ))) 1

/-- `update_window_size` (main.rs lines 144-154): recompute the target from
`calc_target_size`, give the drawing area the target minus the titlebar and
the window the full target (the `resizable` toggle around it ends where it
started and is not otherwise observable). -/
def update_window_size (screen : Int × Int) (scaled_w scaled_h : Int)
    (w : World) : Option World :=
  match calc_target_size screen scaled_w scaled_h with
  | none => none
  | some target =>
      some { w with daContentW := target.1,
                    daContentH := target.2 - TITLEBAR_HEIGHT,
                    winDefaultW := target.1, winDefaultH := target.2 }

/-- `load_image` (main.rs lines 827-867): on a decoding error only an error
line is printed; on success the state is replaced by the new texture with
zero offsets and rotation, the scale is set to the fit ratio capped at 1,
the labels are updated, the window is resized, the cache is cleared and a
redraw is queued. -/
def load_image (screen : Int × Int) (result : Except String Texture)
    (path : String) (w : World) : Option World :=
  match result with
  | Except.error e =>
      some { w with stderrLog := w.stderrLog ++ ["加载失败: " ++ e] }
  | Except.ok texture =>
    let s1 : ImageState :=
      { w.state with original_width := texture.width,
                     original_height := texture.height,
                     pixbuf := some texture,
                     scale := 1, offset_x := 0, offset_y := 0, rotation := 0 }
    match calc_target_size screen texture.width texture.height with
    | none => none
    | some target =>
      let scale : ℚ := fitScale target texture.width texture.height
      let s2 := { s1 with scale := scale }
      let scaled_w := truncQ ((texture.width : ℚ) * scale)
      let scaled_h := truncQ ((texture.height : ℚ) * scale)
      let w1 := { w with state := s2, zoomLabel := scale,
                         resLabel := some (texture.width, texture.height) }
      match update_window_size screen scaled_w scaled_h w1 with
      | none => none
      | some w2 =>
          some { w2 with cache := Cache.initial, redrawQueued := true,
                         pathLabel := some path }

/-- The reset-view button handler (main.rs lines 958-981): refit the scale
from the rotated size, zero the offsets, update the zoom label and the
window size, queue a redraw; a no-op without an image. -/
def resetView (screen : Int × Int) (w : World) : Option World :=
  if w.state.pixbuf.isSome then
    let s := w.state
    let wh := get_rotated_size s
    match calc_target_size screen wh.1 wh.2 with
    | none => none
    | some target =>
      let scale : ℚ := fitScale target wh.1 wh.2
      let s2 := { s with scale := scale, offset_x := 0, offset_y := 0 }
      let scaled_w := truncQ ((wh.1 : ℚ) * scale)
      let scaled_h := truncQ ((wh.2 : ℚ) * scale)
      let w1 := { w with state := s2, zoomLabel := scale }
      match update_window_size screen scaled_w scaled_h w1 with
      | none => none
      | some w2 => some { w2 with redrawQueued := true }
  else some w

/-- The `on_exit_overlay` closure (main.rs lines 664-684, and identically
lines 913-928): back to normal mode, pan offsets reset to zero, the primary
window made visible and presented, a redraw queued, the overlay window
reference dropped. -/
def exitOverlay (w : World) : World :=
  { w with mode := WindowMode.Normal,
           state := { w.state with offset_x := 0, offset_y := 0 },
           mainVisible := true,
           redrawQueued := true,
           overlayWindow := none }

/-- The margin update of the overlay drag gesture (main.rs lines 329-344):
the drag start margins plus the drag delta, truncated to `i32` and clamped
below at zero, stored and applied to the window. -/
def overlayDragUpdate (dragStart : Int × Int) (dx dy : ℚ)
    (_pos : OverlayPosition) : OverlayPosition :=
  let new_left := truncQ ((dragStart.1 : ℚ) + dx)
  let new_top := truncQ ((dragStart.2 : ℚ) + dy)
  { margin_left := max new_left 0, margin_top := max new_top 0 }

/-- The double-click transition into overlay mode (main.rs lines 605-688),
with the toolkit-reported drawing-area size `(daW, daH)` and primary-window
size `(winW, winH)` as parameters: estimate the image's screen position
from a centred window, store the clamped margins, hide the primary window
and open the overlay window. -/
def enterOverlayDblclick (screen : Int × Int) (daW daH winW winH : Int)
    (w : World) : World :=
  if w.state.pixbuf.isSome then
    let s := w.state
    let scaled := get_scaled_size s
    let img_x_in_da := ((daW : ℚ) - (scaled.1 : ℚ)) / 2 + s.offset_x
    let img_y_in_da := ((daH : ℚ) - (scaled.2 : ℚ)) / 2 + s.offset_y
    let da_y_in_win : ℚ := (TITLEBAR_HEIGHT : ℚ)
    let approx_win_x := Int.tdiv (screen.1 - winW) 2
    let approx_win_y := Int.tdiv (screen.2 - winH) 2
    let margin_left := approx_win_x + truncQ img_x_in_da
    let margin_top := approx_win_y + truncQ da_y_in_win + truncQ img_y_in_da
    let pos : OverlayPosition :=
      { margin_left := max margin_left 0, margin_top := max margin_top 0 }
    { w with mode := WindowMode.Overlay, overlayPos := pos,
             mainVisible := false,
             overlayWindow := some (create_overlay_window s pos) }
  else w

/-- The overlay start path run after the initial load (main.rs lines
887-932): when an image is loaded, centre the overlay on the screen with
truncating `i32` division, hide the primary window and open the overlay. -/
def startupOverlay (screen : Int × Int) (w : World) : World :=
  if w.state.pixbuf.isSome then
    let scaled := get_scaled_size w.state
    let pos : OverlayPosition :=
      { margin_left := Int.tdiv (screen.1 - scaled.1) 2,
        margin_top := Int.tdiv (screen.2 - scaled.2) 2 }
    { w with mode := WindowMode.Overlay, mainVisible := false,
             overlayPos := pos,
             overlayWindow := some (create_overlay_window w.state pos) }
  else w

/-! Helper lemmas. -/

theorem rotQuad_zero (k : Int) : rotQuad k 0 = 0 := by
  simp only [rotQuad]
  split_ifs <;> simp

theorem rotQuad_smul (k : Int) (c u v : ℚ) :
    rotQuad k (c * u, c * v) =
      (c * (rotQuad k (u, v)).1, c * (rotQuad k (u, v)).2) := by
  simp only [rotQuad]
  split_ifs <;> simp [mul_neg]

theorem truncQ_nonneg {q : ℚ} (h : 0 ≤ q) : 0 ≤ truncQ q := by
  simp only [truncQ, if_pos h]
  exact Int.floor_nonneg.mpr h

theorem truncQ_le_of_le {q : ℚ} {n : Int} (h0 : 0 ≤ q) (h : q ≤ (n : ℚ)) :
    truncQ q ≤ n := by
  simp only [truncQ, if_pos h0]
  have := Int.floor_le_floor h
  simpa using this

/-! Claim theorems. -/

/-- C2: on every paint the transforms are applied in the fixed order
translate to the intended on-screen centre, rotate by `rotation * 90°`,
scale, translate back by half the original size; consequently the centre
of the original image is painted at the intended on-screen centre
`(x + scaled_w/2, y + scaled_h/2)` for every scale factor and every
rotation quadrant: the rotation pivot is the image centre regardless of
scale. -/
theorem c2_paint_center_pivot (s : ImageState) (W H : ℚ) :
    let scaled_w := ((get_rotated_size s).1 : ℚ) * s.scale
    let scaled_h := ((get_rotated_size s).2 : ℚ) * s.scale
    let x := (W - scaled_w) / 2 + s.offset_x
    let y := (H - scaled_h) / 2 + s.offset_y
    paintPoint s W H ((s.original_width : ℚ) / 2, (s.original_height : ℚ) / 2)
      = (x + scaled_w / 2, y + scaled_h / 2) := by
  simp only [paintPoint, get_rotated_size]
  split_ifs <;> simp [sub_self, mul_zero, rotQuad_zero]

/-- C4: the exit-overlay handler zeroes both pan offsets, makes the primary
window visible again and queues a redraw, and leaves the scale factor,
rotation quadrant, loaded bitmap and original dimensions unchanged. -/
theorem c4_exit_overlay_effect (w : World) :
    (exitOverlay w).state.offset_x = 0 ∧
    (exitOverlay w).state.offset_y = 0 ∧
    (exitOverlay w).mainVisible = true ∧
    (exitOverlay w).redrawQueued = true ∧
    (exitOverlay w).state.scale = w.state.scale ∧
    (exitOverlay w).state.rotation = w.state.rotation ∧
    (exitOverlay w).state.pixbuf = w.state.pixbuf ∧
    (exitOverlay w).state.original_width = w.state.original_width ∧
    (exitOverlay w).state.original_height = w.state.original_height := by
  simp [exitOverlay]

/-- C5: the target window size clamps the image width into
`[400, screen_width - 100]` and the image height plus the fixed 28-pixel
titlebar allowance into `[300, screen_height - 100]` (the allowance is part
of the clamped natural size). -/
theorem c5_calc_target_size_clamps (screen : Int × Int) (img_w img_h : Int)
    (hW : (400 : Int) ≤ screen.1 - 100) (hH : (300 : Int) ≤ screen.2 - 100) :
    calc_target_size screen img_w img_h =
      some (max 400 (min img_w (screen.1 - 100)),
            max 300 (min (img_h + 28) (screen.2 - 100))) := by
  simp [calc_target_size, clampI32, MIN_WIN_WIDTH, MIN_WIN_HEIGHT,
        TITLEBAR_HEIGHT, hW, hH]

/-- Witness for C5 at the fallback screen `(1920, 1080)` and an 800×600
image. -/
theorem c5_calc_target_size_clamps_witness :
    ((400 : Int) ≤ (1920 : Int) - 100 ∧ (300 : Int) ≤ (1080 : Int) - 100) ∧
    calc_target_size (1920, 1080) 800 600 =
      some (max 400 (min 800 ((1920 : Int) - 100)),
            max 300 (min (600 + 28) ((1080 : Int) - 100))) :=
  ⟨by decide, c5_calc_target_size_clamps (1920, 1080) 800 600
    (by decide) (by decide)⟩

/-- C10 counterexample: the claim promises no panic for every possible
monitor geometry, but on a 320×240 monitor the height clamp has lower bound
300 above upper bound 140, so `clamp` panics (modelled as `none`). -/
theorem c10_small_screen_panics :
    calc_target_size (get_screen_size (some (320, 240))) 800 600 = none := by
  decide

/-- C10 amended: `calc_target_size` returns a value without panicking for
every image size provided the screen reported by `get_screen_size` is at
least 500 wide and 400 tall (so each clamp's lower bound does not exceed
its upper bound); this covers the 1920×1080 fallback geometry. -/
theorem c10_no_panic_on_large_screen (screen : Int × Int) (img_w img_h : Int)
    (hW : (500 : Int) ≤ screen.1) (hH : (400 : Int) ≤ screen.2) :
    (calc_target_size screen img_w img_h).isSome = true := by
  have h1 : MIN_WIN_WIDTH ≤ screen.1 - 100 := by
    simp only [MIN_WIN_WIDTH]; omega
  have h2 : MIN_WIN_HEIGHT ≤ screen.2 - 100 := by
    simp only [MIN_WIN_HEIGHT]; omega
  simp [calc_target_size, clampI32, if_pos h1, if_pos h2]

/-- Witness for the amended C10 at the fallback geometry. -/
theorem c10_no_panic_on_large_screen_witness :
    ((500 : Int) ≤ (1920 : Int) ∧ (400 : Int) ≤ (1080 : Int)) ∧
    (calc_target_size (get_screen_size none) 5 5).isSome = true :=
  ⟨by decide, c10_no_panic_on_large_screen (get_screen_size none) 5 5
    (by decide) (by decide)⟩

/-- A loaded 10×10 image at scale 1 with no pan or rotation. -/
def sampleTinyState : ImageState :=
  { pixbuf := some ⟨10, 10⟩, scale := 1, offset_x := 0, offset_y := 0,
    rotation := 0, original_width := 10, original_height := 10 }

/-- The tiny state after a pan/zoom-only change (scale doubled). -/
def sampleTinyZoomed : ImageState := { sampleTinyState with scale := 2 }

/-- A normal-mode world holding the tiny image. -/
def sampleWorld : World :=
  { state := sampleTinyState, cache := Cache.initial, mode := WindowMode.Normal,
    mainVisible := true, daContentW := 400, daContentH := 272,
    winDefaultW := 400, winDefaultH := 300, redrawQueued := false,
    zoomLabel := 1, resLabel := some (10, 10), pathLabel := none,
    overlayPos := OverlayPosition.default, overlayWindow := none,
    stderrLog := [] }

/-- C7 counterexample: for a 10×10 image at scale 1 the scaled image
dimensions are 10×10, but the overlay window is created 50×50 (the code
floors both dimensions at 50), so the overlay window size does not equal
the current scaled image dimensions. -/
theorem c7_tiny_image_overlay_size_differs :
    (get_scaled_size sampleTinyState).1 = 10 ∧
    (create_overlay_window sampleTinyState OverlayPosition.default).defaultW = 50 ∧
    (create_overlay_window sampleTinyState OverlayPosition.default).defaultW ≠
      (get_scaled_size sampleTinyState).1 := by
  have h : get_scaled_size sampleTinyState = (10, 10) := by
    norm_num [get_scaled_size, get_rotated_size, sampleTinyState, truncQ]
  refine ⟨by rw [h], by simp [create_overlay_window, h], ?_⟩
  simp [create_overlay_window, h]

/-- C7 amended: with an image loaded, the double-click overlay transition
hides the primary window and creates an undecorated window on the
layer-shell `Overlay` layer, anchored to the left and top screen edges (not
right/bottom), whose width and height equal the current scaled image
dimensions clamped below at 50 pixels. -/
theorem c7_enter_overlay_config (screen : Int × Int) (daW daH winW winH : Int)
    (w : World) (h : w.state.pixbuf.isSome = true) :
    (enterOverlayDblclick screen daW daH winW winH w).mainVisible = false ∧
    Option.map OverlayWindow.decorated
      (enterOverlayDblclick screen daW daH winW winH w).overlayWindow = some false ∧
    Option.map OverlayWindow.layer
      (enterOverlayDblclick screen daW daH winW winH w).overlayWindow =
        some LayerKind.Overlay ∧
    Option.map OverlayWindow.anchorLeft
      (enterOverlayDblclick screen daW daH winW winH w).overlayWindow = some true ∧
    Option.map OverlayWindow.anchorTop
      (enterOverlayDblclick screen daW daH winW winH w).overlayWindow = some true ∧
    Option.map OverlayWindow.anchorRight
      (enterOverlayDblclick screen daW daH winW winH w).overlayWindow = some false ∧
    Option.map OverlayWindow.anchorBottom
      (enterOverlayDblclick screen daW daH winW winH w).overlayWindow = some false ∧
    Option.map OverlayWindow.defaultW
      (enterOverlayDblclick screen daW daH winW winH w).overlayWindow =
        some (max (get_scaled_size w.state).1 50) ∧
    Option.map OverlayWindow.defaultH
      (enterOverlayDblclick screen daW daH winW winH w).overlayWindow =
        some (max (get_scaled_size w.state).2 50) := by
  simp [enterOverlayDblclick, h, create_overlay_window]

/-- Witness for the amended C7 on the sample world. -/
theorem c7_enter_overlay_config_witness :
    (sampleWorld.state.pixbuf.isSome = true) ∧
    ((enterOverlayDblclick (1920, 1080) 400 272 400 300 sampleWorld).mainVisible = false ∧
     Option.map OverlayWindow.decorated
       (enterOverlayDblclick (1920, 1080) 400 272 400 300 sampleWorld).overlayWindow = some false ∧
     Option.map OverlayWindow.layer
       (enterOverlayDblclick (1920, 1080) 400 272 400 300 sampleWorld).overlayWindow =
         some LayerKind.Overlay ∧
     Option.map OverlayWindow.anchorLeft
       (enterOverlayDblclick (1920, 1080) 400 272 400 300 sampleWorld).overlayWindow = some true ∧
     Option.map OverlayWindow.anchorTop
       (enterOverlayDblclick (1920, 1080) 400 272 400 300 sampleWorld).overlayWindow = some true ∧
     Option.map OverlayWindow.anchorRight
       (enterOverlayDblclick (1920, 1080) 400 272 400 300 sampleWorld).overlayWindow = some false ∧
     Option.map OverlayWindow.anchorBottom
       (enterOverlayDblclick (1920, 1080) 400 272 400 300 sampleWorld).overlayWindow = some false ∧
     Option.map OverlayWindow.defaultW
       (enterOverlayDblclick (1920, 1080) 400 272 400 300 sampleWorld).overlayWindow =
         some (max (get_scaled_size sampleWorld.state).1 50) ∧
     Option.map OverlayWindow.defaultH
       (enterOverlayDblclick (1920, 1080) 400 272 400 300 sampleWorld).overlayWindow =
         some (max (get_scaled_size sampleWorld.state).2 50)) :=
  ⟨by decide, c7_enter_overlay_config (1920, 1080) 400 272 400 300 sampleWorld (by decide)⟩

/-- C1: with an image loaded (and its dimensions acceptable to cairo), a
draw invocation regenerates the cached raster exactly when the cached
rotation differs from the state's rotation or no surface is cached, and a
regenerating draw leaves the cached rotation equal to the state's rotation;
when the rotation matches and a surface is cached the draw leaves the cache
untouched, so a draw after pan/zoom-only changes (same rotation, any image)
re-uses the cache without re-rasterizing. -/
theorem c1_draw_cache_regeneration (s s2 : ImageState) (c : Cache)
    (tex tex2 : Texture)
    (hpix : s.pixbuf = some tex)
    (hw0 : 0 ≤ tex.width) (hw1 : tex.width ≤ 32767)
    (hh0 : 0 ≤ tex.height) (hh1 : tex.height ≤ 32767)
    (hpix2 : s2.pixbuf = some tex2)
    (hrot : s2.rotation = s.rotation) :
    (¬(c.rotation = s.rotation ∧ c.surface.isSome = true) →
       drawCacheStep s c =
         { surface := some ⟨tex.width, tex.height⟩, rotation := s.rotation }) ∧
    ((c.rotation = s.rotation ∧ c.surface.isSome = true) →
       drawCacheStep s c = c) ∧
    drawCacheStep s2 (drawCacheStep s c) = drawCacheStep s c := by
  have hcreate : imageSurfaceCreate tex.width tex.height =
      some ⟨tex.width, tex.height⟩ := by
    simp [imageSurfaceCreate, hw0, hw1, hh0, hh1]
  obtain ⟨csurf, crot⟩ := c
  by_cases hr : crot = s.rotation <;> cases csurf <;>
    simp_all [drawCacheStep, hpix, hpix2, hcreate, hrot]

/-- Witness for C1: the first draw on an empty cache rasterizes; a second
draw after a zoom-only change re-uses the cache. -/
theorem c1_draw_cache_regeneration_witness :
    (sampleTinyState.pixbuf = some ⟨10, 10⟩ ∧ (0 : Int) ≤ 10 ∧ (10 : Int) ≤ 32767 ∧
     sampleTinyZoomed.pixbuf = some ⟨10, 10⟩ ∧
     sampleTinyZoomed.rotation = sampleTinyState.rotation) ∧
    ((¬(Cache.initial.rotation = sampleTinyState.rotation ∧
        Cache.initial.surface.isSome = true) →
       drawCacheStep sampleTinyState Cache.initial =
         { surface := some ⟨10, 10⟩, rotation := sampleTinyState.rotation }) ∧
     ((Cache.initial.rotation = sampleTinyState.rotation ∧
        Cache.initial.surface.isSome = true) →
       drawCacheStep sampleTinyState Cache.initial = Cache.initial) ∧
     drawCacheStep sampleTinyZoomed (drawCacheStep sampleTinyState Cache.initial) =
       drawCacheStep sampleTinyState Cache.initial) :=
  ⟨by decide,
   c1_draw_cache_regeneration sampleTinyState sampleTinyZoomed Cache.initial
     ⟨10, 10⟩ ⟨10, 10⟩ (by decide) (by decide) (by decide) (by decide) (by decide)
     (by decide) (by decide)⟩

theorem clampScale_mem (x : ℚ) : 1/10 ≤ clampScale x ∧ clampScale x ≤ 50 :=
  ⟨le_max_left _ _, max_le (by norm_num) (min_le_right _ _)⟩

theorem calc_target_size_ok {screen : Int × Int} {iw ih : Int}
    {t : Int × Int} (h : calc_target_size screen iw ih = some t) :
    MIN_WIN_WIDTH ≤ screen.1 - 100 ∧ MIN_WIN_HEIGHT ≤ screen.2 - 100 ∧
    t = (max MIN_WIN_WIDTH (min iw (screen.1 - 100)),
         max MIN_WIN_HEIGHT (min (ih + TITLEBAR_HEIGHT) (screen.2 - 100))) := by
  simp only [calc_target_size] at h
  split at h
  next a b heq1 heq2 =>
    unfold clampI32 at heq1 heq2
    split_ifs at heq1 with h1
    split_ifs at heq2 with h2
    rw [Option.some_inj] at heq1 heq2 h
    subst heq1; subst heq2
    exact ⟨h1, h2, h.symm⟩
  next hne =>
    simp at h

theorem fitScale_pos {target : Int × Int} {iw ih : Int}
    (ht1 : 0 < target.1) (ht2 : TITLEBAR_HEIGHT < target.2)
    (hw : 0 < iw) (hh : 0 < ih) : 0 < fitScale target iw ih := by
  unfold fitScale
  have h1 : (0 : ℚ) < (target.1 : ℚ) / (iw : ℚ) :=
    div_pos (by exact_mod_cast ht1) (by exact_mod_cast hw)
  have h2 : (0 : ℚ) < ((target.2 - TITLEBAR_HEIGHT : Int) : ℚ) / (ih : ℚ) :=
    div_pos (by exact_mod_cast (by omega : (0 : Int) < target.2 - TITLEBAR_HEIGHT))
      (by exact_mod_cast hh)
  exact lt_min (lt_min h1 h2) one_pos

theorem fitScale_le_one (target : Int × Int) (iw ih : Int) :
    fitScale target iw ih ≤ 1 := min_le_right _ _

theorem fitScale_mul_w_le {target : Int × Int} {iw : Int} (ih : Int)
    (hw : 0 < iw) : (iw : ℚ) * fitScale target iw ih ≤ (target.1 : ℚ) := by
  have hfs : fitScale target iw ih ≤ (target.1 : ℚ) / (iw : ℚ) :=
    le_trans (min_le_left _ _) (min_le_left _ _)
  have hiw : (0 : ℚ) < (iw : ℚ) := by exact_mod_cast hw
  calc (iw : ℚ) * fitScale target iw ih
      = fitScale target iw ih * (iw : ℚ) := mul_comm _ _
    _ ≤ (target.1 : ℚ) := (le_div_iff hiw).mp hfs

theorem fitScale_mul_h_le {target : Int × Int} {ih : Int} (iw : Int)
    (hh : 0 < ih) :
    (ih : ℚ) * fitScale target iw ih ≤ ((target.2 - TITLEBAR_HEIGHT : Int) : ℚ) := by
  have hfs : fitScale target iw ih ≤ ((target.2 - TITLEBAR_HEIGHT : Int) : ℚ) / (ih : ℚ) :=
    le_trans (min_le_left _ _) (min_le_right _ _)
  have hih : (0 : ℚ) < (ih : ℚ) := by exact_mod_cast hh
  calc (ih : ℚ) * fitScale target iw ih
      = fitScale target iw ih * (ih : ℚ) := mul_comm _ _
    _ ≤ ((target.2 - TITLEBAR_HEIGHT : Int) : ℚ) := (le_div_iff hih).mp hfs

theorem update_window_size_ok_elim {screen : Int × Int}
    {scaled_w scaled_h : Int} {w w2 : World}
    (h : update_window_size screen scaled_w scaled_h w = some w2) :
    ∃ target : Int × Int,
      calc_target_size screen scaled_w scaled_h = some target ∧
      w2 = { w with daContentW := target.1,
                    daContentH := target.2 - TITLEBAR_HEIGHT,
                    winDefaultW := target.1, winDefaultH := target.2 } := by
  unfold update_window_size at h
  split at h
  · simp at h
  next target heq =>
    rw [Option.some_inj] at h
    exact ⟨target, heq, h.symm⟩

theorem load_image_ok_elim {screen : Int × Int} {tex : Texture}
    {path : String} {w w' : World}
    (h : load_image screen (Except.ok tex) path w = some w') :
    ∃ target target2 : Int × Int,
      calc_target_size screen tex.width tex.height = some target ∧
      calc_target_size screen
        (truncQ ((tex.width : ℚ) * fitScale target tex.width tex.height))
        (truncQ ((tex.height : ℚ) * fitScale target tex.width tex.height)) =
          some target2 ∧
      w' = { w with
        state := { w.state with
          pixbuf := some tex,
          scale := fitScale target tex.width tex.height,
          offset_x := 0, offset_y := 0, rotation := 0,
          original_width := tex.width, original_height := tex.height },
        cache := Cache.initial,
        daContentW := target2.1, daContentH := target2.2 - TITLEBAR_HEIGHT,
        winDefaultW := target2.1, winDefaultH := target2.2,
        redrawQueued := true,
        zoomLabel := fitScale target tex.width tex.height,
        resLabel := some (tex.width, tex.height),
        pathLabel := some path } := by
  simp only [load_image] at h
  split at h
  · simp at h
  next target heq =>
    split at h
    · simp at h
    next w2 hup =>
      obtain ⟨target2, heq2, rfl⟩ := update_window_size_ok_elim hup
      rw [Option.some_inj] at h
      exact ⟨target, target2, heq, heq2, h.symm⟩

/-- The load-relevant summary of a world: loaded bitmap, pan offsets,
rotation. -/
def loadSummary (v : World) : Option Texture × ℚ × ℚ × Int :=
  (v.state.pixbuf, v.state.offset_x, v.state.offset_y, v.state.rotation)

/-- The scale factor held in a world's image state. -/
def worldScale (v : World) : ℚ := v.state.scale

/-- A fresh world before any image is loaded. -/
def emptyWorld : World :=
  { state := ImageState.default, cache := Cache.initial, mode := WindowMode.Normal,
    mainVisible := true, daContentW := 400, daContentH := 272,
    winDefaultW := 400, winDefaultH := 300, redrawQueued := false,
    zoomLabel := 1, resLabel := none, pathLabel := none,
    overlayPos := OverlayPosition.default, overlayWindow := none,
    stderrLog := [] }

/-- C9: when loading fails the only effect is appending an error line to
stderr — every other component of the world (image state, cache, window
sizes, labels) is unchanged; when loading succeeds the image state holds
the new texture with zero pan offsets and zero rotation. -/
theorem c9_load_error_atomic (screen : Int × Int) (tex : Texture)
    (path : String) (w : World) :
    (∀ e, load_image screen (Except.error e) path w =
       some { w with stderrLog := w.stderrLog ++ ["加载失败: " ++ e] }) ∧
    ((load_image screen (Except.ok tex) path w).isSome = true →
       Option.map loadSummary (load_image screen (Except.ok tex) path w) =
         some (some tex, 0, 0, 0)) := by
  constructor
  · intro e; rfl
  · intro hs
    obtain ⟨w', hw'⟩ := Option.isSome_iff_exists.mp hs
    obtain ⟨t, t2, _, _, rfl⟩ := load_image_ok_elim hw'
    rw [hw']
    rfl

/-- Witness for C9: a successful 100×80 load into the sample world. -/
theorem c9_load_error_atomic_witness :
    ((load_image (1920, 1080) (Except.ok ⟨100, 80⟩) "img.png" sampleWorld).isSome
       = true) ∧
    Option.map loadSummary
      (load_image (1920, 1080) (Except.ok ⟨100, 80⟩) "img.png" sampleWorld) =
      some (some ⟨100, 80⟩, 0, 0, 0) := by
  have hs : (load_image (1920, 1080) (Except.ok ⟨100, 80⟩) "img.png"
      sampleWorld).isSome = true := by
    simp [load_image, update_window_size, calc_target_size, clampI32,
          MIN_WIN_WIDTH, MIN_WIN_HEIGHT, TITLEBAR_HEIGHT]
  exact ⟨hs, (c9_load_error_atomic (1920, 1080) ⟨100, 80⟩ "img.png" sampleWorld).2 hs⟩

/-- C3 amended: the scroll-zoom handlers (normal and overlay mode) always
leave the scale in `[0.1, 50.0]`; image load and view reset instead set the
scale to the fit ratio capped at 1, which is positive and at most 1 but can
fall below 0.1 for images much larger than the screen. -/
theorem c3_scale_bounds_amended :
    (∀ (screen : Int × Int) (mouse : ℚ × ℚ) (daW daH dy : ℚ) (s : ImageState),
        s.pixbuf.isSome = true →
        1/10 ≤ (scrollZoomState screen mouse daW daH dy s).scale ∧
        (scrollZoomState screen mouse daW daH dy s).scale ≤ 50) ∧
    (∀ (dy : ℚ) (s : ImageState), s.pixbuf.isSome = true →
        1/10 ≤ (overlayScrollZoomState dy s).scale ∧
        (overlayScrollZoomState dy s).scale ≤ 50) ∧
    (∀ (screen : Int × Int) (tex : Texture) (path : String) (w w' : World),
        0 < tex.width → 0 < tex.height →
        load_image screen (Except.ok tex) path w = some w' →
        0 < w'.state.scale ∧ w'.state.scale ≤ 1) ∧
    (∀ (screen : Int × Int) (w w' : World),
        0 < (get_rotated_size w.state).1 → 0 < (get_rotated_size w.state).2 →
        w.state.pixbuf.isSome = true →
        resetView screen w = some w' →
        0 < w'.state.scale ∧ w'.state.scale ≤ 1) := by
  refine ⟨?_, ?_, ?_, ?_⟩
  · intro screen mouse daW daH dy s hs
    have hnone : s.pixbuf.isNone = false := by
      cases h : s.pixbuf <;> simp_all
    simp only [scrollZoomState, hnone, Bool.false_eq_true, if_false]
    split
    · exact clampScale_mem _
    · exact clampScale_mem _
  · intro dy s hs
    have hnone : s.pixbuf.isNone = false := by
      cases h : s.pixbuf <;> simp_all
    simp only [overlayScrollZoomState, hnone, Bool.false_eq_true, if_false]
    exact clampScale_mem _
  · intro screen tex path w w' hw hh hload
    obtain ⟨t, t2, hcalc, _, rfl⟩ := load_image_ok_elim hload
    obtain ⟨h1, h2, ht⟩ := calc_target_size_ok hcalc
    subst ht
    constructor
    · refine fitScale_pos ?_ ?_ hw hh
      · simp only [MIN_WIN_WIDTH]
        have := le_max_left (400 : Int) (min tex.width (screen.1 - 100))
        omega
      · simp only [MIN_WIN_HEIGHT, TITLEBAR_HEIGHT]
        have := le_max_left (300 : Int)
          (min (tex.height + TITLEBAR_HEIGHT) (screen.2 - 100))
        omega
    · exact fitScale_le_one _ _ _
  · intro screen w w' hw1 hw2 hpix hload
    simp only [resetView, hpix, if_true] at hload
    split at hload
    · simp at hload
    next target heq =>
      split at hload
      · simp at hload
      next w2 hup =>
        obtain ⟨t2, heq2, rfl⟩ := update_window_size_ok_elim hup
        rw [Option.some_inj] at hload
        subst hload
        obtain ⟨h1, h2, ht⟩ := calc_target_size_ok heq
        subst ht
        constructor
        · refine fitScale_pos ?_ ?_ hw1 hw2
          · simp only [MIN_WIN_WIDTH]
            have := le_max_left (400 : Int)
              (min (get_rotated_size w.state).1 (screen.1 - 100))
            omega
          · simp only [MIN_WIN_HEIGHT, TITLEBAR_HEIGHT]
            have := le_max_left (300 : Int)
              (min ((get_rotated_size w.state).2 + TITLEBAR_HEIGHT) (screen.2 - 100))
            omega
        · exact fitScale_le_one _ _ _

/-- C3 counterexample: loading a 100000×100 image on the 1920×1080 fallback
screen sets the scale to 1820/100000 = 91/5000, which is below the claimed
lower bound 0.1. -/
theorem c3_load_scale_below_bound :
    Option.map worldScale
      (load_image (1920, 1080) (Except.ok ⟨100000, 100⟩) "big.png" emptyWorld) =
      some (91/5000) ∧ ((91 : ℚ)/5000) < 1/10 := by
  constructor
  · have hs : (load_image (1920, 1080) (Except.ok ⟨100000, 100⟩) "big.png"
        emptyWorld).isSome = true := by
      simp [load_image, update_window_size, calc_target_size, clampI32,
            MIN_WIN_WIDTH, MIN_WIN_HEIGHT, TITLEBAR_HEIGHT]
    obtain ⟨w', hw'⟩ := Option.isSome_iff_exists.mp hs
    obtain ⟨t, t2, hcalc, _, rfl⟩ := load_image_ok_elim hw'
    have hcv : calc_target_size (1920, 1080) (100000 : Int) 100 =
        some (1820, 300) := by decide
    rw [hcv] at hcalc
    have ht : t = (1820, 300) := (Option.some_inj.mp hcalc).symm
    subst ht
    rw [hw']
    simp only [Option.map_some']
    rw [Option.some_inj]
    show fitScale (1820, 300) 100000 100 = 91/5000
    norm_num [fitScale, TITLEBAR_HEIGHT, min_def]
  · norm_num

/-- Witness for the amended C3: one normal-mode scroll zoom on the tiny
image keeps the scale within `[0.1, 50]`. -/
theorem c3_scale_bounds_amended_witness :
    (sampleTinyState.pixbuf.isSome = true) ∧
    (1/10 ≤ (scrollZoomState (1920, 1080) (0, 0) 400 272 1 sampleTinyState).scale ∧
     (scrollZoomState (1920, 1080) (0, 0) 400 272 1 sampleTinyState).scale ≤ 50) :=
  ⟨by decide,
   c3_scale_bounds_amended.1 (1920, 1080) (0, 0) 400 272 1 sampleTinyState (by decide)⟩

theorem scaled_size_le {t : Int × Int} {iw ih : Int} (hw : 0 < iw) (hh : 0 < ih)
    (ht1 : 0 < t.1) (ht2 : TITLEBAR_HEIGHT < t.2) :
    0 ≤ truncQ ((iw : ℚ) * fitScale t iw ih) ∧
    truncQ ((iw : ℚ) * fitScale t iw ih) ≤ t.1 ∧
    0 ≤ truncQ ((ih : ℚ) * fitScale t iw ih) ∧
    truncQ ((ih : ℚ) * fitScale t iw ih) ≤ t.2 - TITLEBAR_HEIGHT := by
  have hfs := fitScale_pos ht1 ht2 hw hh
  have hq1 : (0 : ℚ) ≤ (iw : ℚ) * fitScale t iw ih :=
    mul_nonneg (by exact_mod_cast hw.le) hfs.le
  have hq2 : (0 : ℚ) ≤ (ih : ℚ) * fitScale t iw ih :=
    mul_nonneg (by exact_mod_cast hh.le) hfs.le
  refine ⟨truncQ_nonneg hq1, truncQ_le_of_le hq1 (fitScale_mul_w_le ih hw),
          truncQ_nonneg hq2, ?_⟩
  exact truncQ_le_of_le hq2 (fitScale_mul_h_le iw hh)

/-- C6: every operation that sets the overlay position leaves both margins
non-negative: the drag update and the double-click transition clamp with
`.max(0)`, and the startup overlay path centres the image whose scaled size
the preceding successful load bounded by the screen size. -/
theorem c6_overlay_margins_nonneg :
    (∀ (dragStart : Int × Int) (dx dy : ℚ) (pos : OverlayPosition),
        0 ≤ (overlayDragUpdate dragStart dx dy pos).margin_left ∧
        0 ≤ (overlayDragUpdate dragStart dx dy pos).margin_top) ∧
    (∀ (screen : Int × Int) (daW daH winW winH : Int) (w : World),
        w.state.pixbuf.isSome = true →
        0 ≤ (enterOverlayDblclick screen daW daH winW winH w).overlayPos.margin_left ∧
        0 ≤ (enterOverlayDblclick screen daW daH winW winH w).overlayPos.margin_top) ∧
    (∀ (screen : Int × Int) (tex : Texture) (path : String) (w w' : World),
        0 < tex.width → 0 < tex.height →
        load_image screen (Except.ok tex) path w = some w' →
        0 ≤ (startupOverlay screen w').overlayPos.margin_left ∧
        0 ≤ (startupOverlay screen w').overlayPos.margin_top) ∧
    (0 ≤ OverlayPosition.default.margin_left ∧
     0 ≤ OverlayPosition.default.margin_top) := by
  refine ⟨?_, ?_, ?_, by decide⟩
  · intro dragStart dx dy pos
    exact ⟨le_max_right _ _, le_max_right _ _⟩
  · intro screen daW daH winW winH w hpix
    simp only [enterOverlayDblclick, hpix, if_true]
    exact ⟨le_max_right _ _, le_max_right _ _⟩
  · intro screen tex path w w' hw hh hload
    obtain ⟨t, t2, hcalc, _, rfl⟩ := load_image_ok_elim hload
    obtain ⟨h1, h2, ht⟩ := calc_target_size_ok hcalc
    have ht1 : 0 < t.1 := by
      rw [ht]; simp only [MIN_WIN_WIDTH]
      have := le_max_left (400 : Int) (min tex.width (screen.1 - 100))
      omega
    have ht2 : TITLEBAR_HEIGHT < t.2 := by
      rw [ht]; simp only [MIN_WIN_HEIGHT, TITLEBAR_HEIGHT]
      have := le_max_left (300 : Int)
        (min (tex.height + TITLEBAR_HEIGHT) (screen.2 - 100))
      simp only [TITLEBAR_HEIGHT] at this ⊢
      omega
    have ht1' : t.1 ≤ screen.1 - 100 := by
      rw [ht]; simp only [MIN_WIN_WIDTH] at h1 ⊢
      have := min_le_right tex.width (screen.1 - 100)
      omega
    have ht2' : t.2 ≤ screen.2 - 100 := by
      rw [ht]; simp only [MIN_WIN_HEIGHT] at h2 ⊢
      have := min_le_right (tex.height + TITLEBAR_HEIGHT) (screen.2 - 100)
      omega
    obtain ⟨hs0, hs1, hs2, hs3⟩ := scaled_size_le hw hh ht1 ht2
    have hpix : (some tex).isSome = true := rfl
    simp only [startupOverlay, get_scaled_size, get_rotated_size, hpix, if_true]
    constructor
    · apply Int.tdiv_nonneg _ (by norm_num)
      simp only [TITLEBAR_HEIGHT] at hs3 ht2'
      norm_num
      omega
    · apply Int.tdiv_nonneg _ (by norm_num)
      simp only [TITLEBAR_HEIGHT] at hs3 ht2'
      norm_num
      omega

/-- Witness for C6: the double-click transition from the sample world
leaves non-negative margins. -/
theorem c6_overlay_margins_nonneg_witness :
    (sampleWorld.state.pixbuf.isSome = true) ∧
    (0 ≤ (enterOverlayDblclick (1920, 1080) 400 272 400 300
            sampleWorld).overlayPos.margin_left ∧
     0 ≤ (enterOverlayDblclick (1920, 1080) 400 272 400 300
            sampleWorld).overlayPos.margin_top) :=
  ⟨by decide,
   c6_overlay_margins_nonneg.2.1 (1920, 1080) 400 272 400 300 sampleWorld (by decide)⟩

theorem paintPoint_eval (s : ImageState) (W H p1 p2 : ℚ) :
    paintPoint s W H (p1, p2) =
      ((W - ((get_rotated_size s).1 : ℚ) * s.scale) / 2 + s.offset_x +
         ((get_rotated_size s).1 : ℚ) * s.scale / 2 +
         (rotQuad s.rotation (s.scale * (p1 - (s.original_width : ℚ) / 2),
            s.scale * (p2 - (s.original_height : ℚ) / 2))).1,
       (H - ((get_rotated_size s).2 : ℚ) * s.scale) / 2 + s.offset_y +
         ((get_rotated_size s).2 : ℚ) * s.scale / 2 +
         (rotQuad s.rotation (s.scale * (p1 - (s.original_width : ℚ) / 2),
            s.scale * (p2 - (s.original_height : ℚ) / 2))).2) := rfl

theorem paintPoint_modified_eval (s : ImageState) (ns ox oy W H p1 p2 : ℚ) :
    paintPoint { s with scale := ns, offset_x := ox, offset_y := oy } W H (p1, p2) =
      ((W - ((get_rotated_size s).1 : ℚ) * ns) / 2 + ox +
         ((get_rotated_size s).1 : ℚ) * ns / 2 +
         (rotQuad s.rotation (ns * (p1 - (s.original_width : ℚ) / 2),
            ns * (p2 - (s.original_height : ℚ) / 2))).1,
       (H - ((get_rotated_size s).2 : ℚ) * ns) / 2 + oy +
         ((get_rotated_size s).2 : ℚ) * ns / 2 +
         (rotQuad s.rotation (ns * (p1 - (s.original_width : ℚ) / 2),
            ns * (p2 - (s.original_height : ℚ) / 2))).2) := rfl

/-- C8 amended: in normal mode, when the new scaled size reaches the screen
limit, the scroll zoom is cursor-anchored: the image point painted under
the mouse cursor before the zoom is painted at the same drawing-area
position after it (the formula uses the post-clamp scale, so this holds
even when the clamp cuts the scale change off); when the scaled size is
below the limit, the handler instead resets both pan offsets to zero, so
the zoom is centre-anchored rather than cursor-anchored. -/
theorem c8_cursor_anchored_at_limit (screen : Int × Int)
    (m1 m2 daW daH dy : ℚ) (s : ImageState) (q1 q2 : ℚ)
    (hpix : s.pixbuf.isNone = false)
    (hscale : s.scale ≠ 0)
    (hlimit : is_at_screen_limit screen
        (truncQ (((get_rotated_size s).1 : ℚ) * clampScale (s.scale * zoomFactor dy)))
        (truncQ (((get_rotated_size s).2 : ℚ) * clampScale (s.scale * zoomFactor dy)))
        = true)
    (hq : paintPoint s daW daH (q1, q2) = (m1, m2)) :
    paintPoint (scrollZoomState screen (m1, m2) daW daH dy s) daW daH (q1, q2) =
      (m1, m2) := by
  have hstep : scrollZoomState screen (m1, m2) daW daH dy s =
      { s with scale := clampScale (s.scale * zoomFactor dy),
               offset_x := s.offset_x + (m1 - (daW / 2 + s.offset_x)) *
                 (1 - clampScale (s.scale * zoomFactor dy) / s.scale),
               offset_y := s.offset_y + (m2 - (daH / 2 + s.offset_y)) *
                 (1 - clampScale (s.scale * zoomFactor dy) / s.scale) } := by
    simp only [scrollZoomState, hpix, Bool.false_eq_true, if_false, hlimit, if_true]
  rw [paintPoint_eval, Prod.mk.injEq] at hq
  obtain ⟨hq1, hq2⟩ := hq
  rw [hstep, paintPoint_modified_eval, Prod.mk.injEq]
  have e1 : clampScale (s.scale * zoomFactor dy) * (q1 - (s.original_width : ℚ) / 2) =
      clampScale (s.scale * zoomFactor dy) / s.scale *
        (s.scale * (q1 - (s.original_width : ℚ) / 2)) := by
    field_simp
    ring
  have e2 : clampScale (s.scale * zoomFactor dy) * (q2 - (s.original_height : ℚ) / 2) =
      clampScale (s.scale * zoomFactor dy) / s.scale *
        (s.scale * (q2 - (s.original_height : ℚ) / 2)) := by
    field_simp
    ring
  rw [e1, e2, rotQuad_smul]
  constructor
  · linear_combination (clampScale (s.scale * zoomFactor dy) / s.scale) * hq1
  · linear_combination (clampScale (s.scale * zoomFactor dy) / s.scale) * hq2

/-- A loaded 2000×2000 image at scale 1: larger than the 1920×1080 screen
limit, so scroll zooms stay cursor-anchored. -/
def sampleBigState : ImageState :=
  { pixbuf := some ⟨2000, 2000⟩, scale := 1, offset_x := 0, offset_y := 0,
    rotation := 0, original_width := 2000, original_height := 2000 }

/-- A loaded 100×100 image at scale 1: far below the screen limit, so a
scroll zoom recentres instead of anchoring at the cursor. -/
def sample100State : ImageState :=
  { pixbuf := some ⟨100, 100⟩, scale := 1, offset_x := 0, offset_y := 0,
    rotation := 0, original_width := 100, original_height := 100 }

/-- Witness for the amended C8: zooming out on the 2000×2000 image (at the
screen limit) keeps the image point (190, 624), painted at (100, 100),
under the cursor at (100, 100). -/
theorem c8_cursor_anchored_at_limit_witness :
    (sampleBigState.pixbuf.isNone = false ∧ sampleBigState.scale ≠ 0 ∧
     is_at_screen_limit (1920, 1080)
       (truncQ (((get_rotated_size sampleBigState).1 : ℚ) *
          clampScale (sampleBigState.scale * zoomFactor 1)))
       (truncQ (((get_rotated_size sampleBigState).2 : ℚ) *
          clampScale (sampleBigState.scale * zoomFactor 1))) = true ∧
     paintPoint sampleBigState 1820 952 (190, 624) = (100, 100)) ∧
    paintPoint (scrollZoomState (1920, 1080) (100, 100) 1820 952 1 sampleBigState)
      1820 952 (190, 624) = (100, 100) := by
  have h1 : sampleBigState.pixbuf.isNone = false := by decide
  have h2 : sampleBigState.scale ≠ 0 := by norm_num [sampleBigState]
  have hcl : clampScale (sampleBigState.scale * zoomFactor 1) = 10/11 := by
    norm_num [sampleBigState, clampScale, zoomFactor, min_def, max_def]
  have hgrs : get_rotated_size sampleBigState = (2000, 2000) := by decide
  have htr : truncQ ((2000 : ℚ) * (10/11)) = 1818 := by
    rw [truncQ]
    norm_num
  have h3 : is_at_screen_limit (1920, 1080)
      (truncQ (((get_rotated_size sampleBigState).1 : ℚ) *
         clampScale (sampleBigState.scale * zoomFactor 1)))
      (truncQ (((get_rotated_size sampleBigState).2 : ℚ) *
         clampScale (sampleBigState.scale * zoomFactor 1))) = true := by
    rw [hcl, hgrs]
    norm_num
    rw [show truncQ ((20000 : ℚ)/11) = 1818 from by rw [truncQ]; norm_num]
    decide
  have h4 : paintPoint sampleBigState 1820 952 (190, 624) = (100, 100) := by
    rw [paintPoint_eval, hgrs]
    norm_num [sampleBigState, rotQuad]
  exact ⟨⟨h1, h2, h3, h4⟩,
    c8_cursor_anchored_at_limit (1920, 1080) 100 100 1820 952 1 sampleBigState
      190 624 h1 h2 h3 h4⟩

/-- C8 counterexample: zooming out on the 100×100 image (below the screen
limit, and with the scale change not cut off by the clamp) moves the image
point that was painted under the cursor: the point (0, 50) was painted at
(150, 136), the cursor sits there, yet after the zoom it is painted at
(1700/11, 136) ≠ (150, 136). -/
theorem c8_small_image_zoom_not_anchored :
    clampScale (sample100State.scale * zoomFactor 1) =
      sample100State.scale * zoomFactor 1 ∧
    paintPoint sample100State 400 272 (0, 50) = (150, 136) ∧
    paintPoint (scrollZoomState (1920, 1080) (150, 136) 400 272 1 sample100State)
      400 272 (0, 50) ≠ (150, 136) := by
  have hgrs : get_rotated_size sample100State = (100, 100) := by decide
  have hcl : clampScale (sample100State.scale * zoomFactor 1) = 10/11 := by
    norm_num [sample100State, clampScale, zoomFactor, min_def, max_def]
  refine ⟨?_, ?_, ?_⟩
  · rw [hcl]
    norm_num [sample100State, zoomFactor]
  · rw [paintPoint_eval, hgrs]
    norm_num [sample100State, rotQuad]
  · have hstep : scrollZoomState (1920, 1080) (150, 136) 400 272 1 sample100State =
        { pixbuf := some ⟨100, 100⟩, scale := 10/11, offset_x := 0, offset_y := 0,
          rotation := 0, original_width := 100, original_height := 100 } := by
      norm_num [scrollZoomState, sample100State, get_rotated_size, zoomFactor,
                clampScale, min_def, max_def, truncQ, is_at_screen_limit,
                TITLEBAR_HEIGHT]
    rw [hstep, paintPoint_eval]
    have hgrs2 : get_rotated_size
        { pixbuf := some ⟨100, 100⟩, scale := 10/11, offset_x := 0, offset_y := 0,
          rotation := 0, original_width := 100, original_height := 100 } =
        (100, 100) := by decide
    rw [hgrs2]
    norm_num [rotQuad, Prod.mk.injEq]
